import Mathlib

/-!
Verification of the Funda acquisition-and-normalization pipeline.

Shallow embedding of the pipeline code:
* `src/src/api-client.ts`  — `FundaAPIClient`: `parseKenmerkValue`,
  `parseKenmerkSections`, `extractImages`, `parseListingResponse`,
  `getListingsBatch`, `rateLimit`.
* `src/unnamed/part_001`   — transformer (`normalizePropertyType`,
  `parsePricePerSqm`, `extractFeatures`, `transformToStandard`) and the
  REST scraper (`fetchListing`, `fetchListingsBatch`).
* `src/unnamed/part_002`   — parser (`parsePrice`, `determinePriceUnit`,
  `extractSqm`, `extractNumber`, `detectPropertyType`, `normalizeProperty`,
  `normalizePropertyFromAPI`).

Modelling conventions:
* JavaScript `string | undefined | null` becomes `Option String`; a value is
  *truthy* iff it is `some s` with `s ≠ ""`.
* JavaScript numbers become `Option Int` where `none` stands for
  `null`/`undefined`/`NaN`; a value is truthy iff it is `some n` with `n ≠ 0`.
  (`NaN` and an absent number are conflated: both are falsy, neither is ever
  added to the output, and no code path distinguishes them.)
* Fractional numbers produced by `parseFloat` become `Option ℚ`.
* Wall-clock reads (`new Date().toISOString()`, `Date.now()`, `Math.random()`)
  become explicit parameters, so the stateful code is explicit state passing.
* The character class of `replace(/[€\s.]/g, '')` is modelled over the common
  JavaScript whitespace characters (space, tab, LF, VT, FF, CR, NBSP); the
  exotic Unicode space code points change nothing on the data handled here.
* `Char.toLower` is ASCII-only, matching `toLowerCase` on all strings that
  occur in the tables and data of this repository.
-/

/-! ## JavaScript primitives -/

/-- Truthiness of a JS `string | undefined | null`: `undefined`, `null` and
`""` are falsy. -/
def truthyS : Option String → Bool
  | some s => s ≠ ""
  | none => false

/-- Truthiness of a JS number-or-absent: `undefined`, `null`, `NaN` (all
`none`) and `0` are falsy. -/
def truthyN : Option Int → Bool
  | some n => n ≠ 0
  | none => false

/-- Truthiness of a JS fractional number-or-absent. -/
def truthyQ : Option ℚ → Bool
  | some q => q ≠ 0
  | none => false

/-- JS `x || dflt` on strings: keeps `x` when truthy, otherwise the default. -/
def jsOrS (x : Option String) (dflt : String) : String :=
  match x with
  | some s => if s = "" then dflt else s
  | none => dflt

/-- JS `x || dflt` on numbers. -/
def jsOrN (x : Option Int) (dflt : Int) : Int :=
  match x with
  | some n => if n = 0 then dflt else n
  | none => dflt

/-- JS `x || null` on numbers (`0` and `NaN` collapse to `null`). -/
def jsOrNullN (x : Option Int) : Option Int :=
  if truthyN x then x else none

/-- JS `x || false` on booleans. -/
def jsOrB (x : Option Bool) : Bool :=
  x.getD false

/-- The JS whitespace characters matched by `\s` that occur in practice. -/
def isJSWhitespace (c : Char) : Bool :=
  c = ' ' || c = '\t' || c = '\n' || c = '\x0b' || c = '\x0c' || c = '\r' ||
    c = ' '

/-- ASCII lower-casing, the effect of `toLowerCase()` on the data handled
here. -/
def toLowerJS (s : String) : String :=
  String.mk (s.toList.map Char.toLower)

/-- JS `s.trim()`: strip leading and trailing whitespace. -/
def trimJS (s : String) : String :=
  String.mk
    (((s.toList.dropWhile isJSWhitespace).reverse.dropWhile isJSWhitespace).reverse)

/-- Whether `needle` occurs contiguously inside `hay`. -/
def hasInfix (hay needle : List Char) : Bool :=
  match hay with
  | [] => needle.isEmpty
  | _ :: t => needle.isPrefixOf hay || hasInfix t needle

/-- JS `hay.includes(needle)`: substring containment. -/
def containsSub (hay needle : String) : Bool :=
  hasInfix hay.toList needle.toList

/-- JS `replace(',', '.')` with a string pattern replaces only the first
occurrence. -/
def replaceFirstComma : List Char → List Char
  | [] => []
  | c :: rest => if c = ',' then '.' :: rest else c :: replaceFirstComma rest

/-- Value of a nonempty digit string. -/
def digitsVal (ds : List Char) : Nat :=
  ds.foldl (fun acc c => acc * 10 + (c.toNat - '0'.toNat)) 0

/-- JS `parseInt(s, 10)`: skip leading whitespace, optional sign, then a
decimal-digit prefix; `none` models `NaN`. -/
def parseIntJS (s : String) : Option Int :=
  let cs := s.toList.dropWhile isJSWhitespace
  let signAndBody : Bool × List Char :=
    match cs with
    | '-' :: rest => (true, rest)
    | '+' :: rest => (false, rest)
    | _ => (false, cs)
  let ds := signAndBody.2.takeWhile Char.isDigit
  if ds.isEmpty then none
  else
    let n : Int := (digitsVal ds : Nat)
    some (if signAndBody.1 then -n else n)

/-- JS `parseFloat(s)`: skip leading whitespace, optional sign, integer digits,
optional `.` and fraction digits; requires at least one digit overall; `none`
models `NaN`. (Exponents never occur in the handled data.) -/
def parseFloatJS (s : String) : Option ℚ :=
  let cs := s.toList.dropWhile isJSWhitespace
  let signAndBody : Bool × List Char :=
    match cs with
    | '-' :: rest => (true, rest)
    | '+' :: rest => (false, rest)
    | _ => (false, cs)
  let intDs := signAndBody.2.takeWhile Char.isDigit
  let afterInt := signAndBody.2.drop intDs.length
  let fracDs : List Char :=
    match afterInt with
    | '.' :: rest => rest.takeWhile Char.isDigit
    | _ => []
  if intDs.isEmpty && fracDs.isEmpty then none
  else
    let q : ℚ :=
      (digitsVal intDs : ℚ) + (digitsVal fracDs : ℚ) / ((10 : ℚ) ^ fracDs.length)
    some (if signAndBody.1 then -q else q)

/-- JS `s.match(/(\d+)/)`: the first maximal run of decimal digits, if any. -/
def firstDigitRun : List Char → Option (List Char)
  | [] => none
  | c :: rest =>
    if c.isDigit then some (c :: rest.takeWhile Char.isDigit)
    else firstDigitRun rest

/-- Result of `parseInt` on the first digit run found by `match(/(\d+)/)`. -/
def firstNumber (s : String) : Option Int :=
  (firstDigitRun s.toList).map (fun ds => (digitsVal ds : Int))

/-! ## Attribute tree (`KenmerkSections`) and `parseKenmerkValue` -/

/-- A characteristic field (`KenmerkenList` entry): optional `Id`, a `Value`
(optional to tolerate malformed data), and an optional nested
`KenmerkenList`. -/
inductive Kenmerk : Type where
  | mk (id : Option String) (value : Option String)
      (children : Option (List Kenmerk)) : Kenmerk

def Kenmerk.id : Kenmerk → Option String
  | .mk i _ _ => i

def Kenmerk.value : Kenmerk → Option String
  | .mk _ v _ => v

def Kenmerk.children : Kenmerk → Option (List Kenmerk)
  | .mk _ _ c => c

/-- A characteristic section: an `Id` and an optional `KenmerkenList`. -/
structure KSection : Type where
  id : String
  kenmerkenList : Option (List Kenmerk)

mutual

/-- One step of the `flatten` closure of `parseKenmerkValue`: push the item,
then recurse into its nested `KenmerkenList` when present. -/
def flattenOne : Kenmerk → List Kenmerk
  | .mk i v c => .mk i v c :: flattenOpt c

def flattenOpt : Option (List Kenmerk) → List Kenmerk
  | none => []
  | some l => flattenList l

def flattenList : List Kenmerk → List Kenmerk
  | [] => []
  | k :: rest => flattenOne k ++ flattenList rest

end

/-- Model of `FundaAPIClient.parseKenmerkValue` (api-client.ts:164-186): find the first
section whose `Id` matches, flatten its nested `KenmerkenList` depth-first,
return the first matching field's `Value` (with `field?.Value || null`
collapsing an empty value to `null`). -/
def parseKenmerkValue (sections : List KSection) (sectionId fieldId : String) :
    Option String :=
  match sections.find? (fun s => s.id = sectionId) with
  | none => none
  | some sec =>
    match sec.kenmerkenList with
    | none => none
    | some l =>
      match (flattenList l).find? (fun k => k.id = some fieldId) with
      | none => none
      | some f =>
        match f.value with
        | none => none
        | some v => if v = "" then none else some v

/-- Modelled from the spec: `resolve(sections, sectionId, fieldId)` — locate
the first section whose id matches, flatten its fields and all descendant
fields depth-first with parent fields before child fields, return the value of
the first field whose id equals the requested id, and absent when no section
or no field matches or the field is without (a nonempty) value. -/
def resolveSpec (sections : List KSection) (sectionId fieldId : String) :
    Option String :=
  (sections.find? (fun s => s.id = sectionId)).bind fun sec =>
    ((flattenList (sec.kenmerkenList.getD [])).find?
        (fun k => k.id = some fieldId)).bind fun f =>
      f.value.bind fun v => if v = "" then none else some v

/-! ## Funda API response data model (types.ts) -/

/-- Model of `TransactionType = 'sale' | 'rent' | 'unknown'`. -/
inductive TransactionType : Type where
  | sale
  | rent
  | unknown
deriving DecidableEq, Repr

/-- Model of `FundaListingResponse.Identifiers`. -/
structure Identifiers : Type where
  globalId : Option Int := none
  tinyId : Option String := none
deriving Repr

/-- Model of `FundaListingResponse.Price` (only the field the parser reads). -/
structure PriceInfo : Type where
  numericSellingPrice : Option Int := none
deriving Repr

/-- Model of `FundaListingResponse.AddressDetails`; every attribute may be missing in a
partial payload. -/
structure AddressDetails : Type where
  title : Option String := none
  city : Option String := none
  province : Option String := none
  country : Option String := none
  houseNumber : Option String := none
  postCode : Option String := none
deriving Repr

/-- Model of `FundaListingResponse.Coordinates`. -/
structure Coords : Type where
  latitude : Option Int := none
  longitude : Option Int := none
deriving Repr

/-- One `Media.Photos.Items` entry. -/
structure PhotoItem : Type where
  id : Option String := none
deriving Repr

/-- Model of `Media.Photos`. -/
structure Photos : Type where
  items : Option (List PhotoItem) := none
deriving Repr

/-- Model of `FundaListingResponse.Media`. -/
structure Media : Type where
  photos : Option Photos := none
deriving Repr

/-- Model of `FundaListingResponse.ObjectInsights`. -/
structure Insights : Type where
  views : Option String := none
  saves : Option String := none
deriving Repr

/-- Model of `Urls.FriendlyUrl`. -/
structure FriendlyUrl : Type where
  fullUrl : Option String := none
deriving Repr

/-- Model of `FundaListingResponse.Urls`. -/
structure UrlsInfo : Type where
  friendlyUrl : Option FriendlyUrl := none
deriving Repr

/-- Model of `FundaListingResponse.ListingDescription`. -/
structure ListingDescriptionInfo : Type where
  description : Option String := none
deriving Repr

/-- Model of `FundaListingResponse`, restricted to the attributes the pipeline reads;
every attribute is optional because the parser guards each access. -/
structure FundaListingResponse : Type where
  identifiers : Option Identifiers := none
  price : Option PriceInfo := none
  kenmerkSections : Option (List KSection) := none
  urls : Option UrlsInfo := none
  listingDescription : Option ListingDescriptionInfo := none
  addressDetails : Option AddressDetails := none
  coordinates : Option Coords := none
  media : Option Media := none
  isSoldOrRented : Option Bool := none
  objectType : Option String := none
  offeringType : Option String := none
  publicationDate : Option String := none
  objectInsights : Option Insights := none

/-- Model of `FundaPropertyData` (types.ts): the parsed-listing record produced by
`parseListingResponse`. -/
structure FundaPropertyData : Type where
  tinyId : String := ""
  globalId : Int := 0
  url : String := ""
  title : String := ""
  address : String := ""
  postalCode : String := ""
  city : String := ""
  province : String := ""
  country : String := "Netherlands"
  latitude : Option Int := none
  longitude : Option Int := none
  price : Option Int := none
  currency : String := "EUR"
  pricePerSqm : Option String := none
  sqm : Option Int := none
  plotSqm : Option Int := none
  rooms : Option Int := none
  bedrooms : Option Int := none
  bathrooms : Option Int := none
  yearBuilt : Option Int := none
  objectType : String := "Unknown"
  dutchPropertyType : Option String := none
  constructionType : Option String := none
  energyLabel : Option String := none
  parkingType : Option String := none
  hasParking : Option Bool := none
  description : String := ""
  images : List String := []
  views : Option Int := none
  saves : Option Int := none
  transactionType : TransactionType := .unknown
  publicationDate : Option String := none
  isSoldOrRented : Bool := false
  scrapedAt : String := ""
deriving DecidableEq, Repr

/-- The partial record built by `parseKenmerkSections`. -/
structure KenmerkData : Type where
  pricePerSqm : Option String := none
  dutchPropertyType : Option String := none
  constructionType : Option String := none
  yearBuilt : Option Int := none
  sqm : Option Int := none
  plotSqm : Option Int := none
  rooms : Option Int := none
  bedrooms : Option Int := none
  bathrooms : Option Int := none
  energyLabel : Option String := none
  parkingType : Option String := none
  hasParking : Option Bool := none
deriving DecidableEq, Repr

/-- The cleanup `pricePerM2.replace(/[€\s.]/g, '').replace(',', '.')` in
`parseKenmerkSections` (api-client.ts:198). -/
def cleanPriceStringAPI (s : String) : String :=
  String.mk (replaceFirstComma
    (s.toList.filter (fun c => ¬(c = '€' || isJSWhitespace c || c = '.'))))

/-- Model of `FundaAPIClient.parseKenmerkSections` (api-client.ts:191-278). -/
def parseKenmerkSections (data : FundaListingResponse) : KenmerkData :=
  let sections := data.kenmerkSections.getD []
  let pricePerM2 := parseKenmerkValue sections "overdracht" "overdracht-vraagprijsperm2"
  let propertyType := parseKenmerkValue sections "bouw" "bouw-soortobject"
  let constructionType := parseKenmerkValue sections "bouw" "bouw-soortbouw"
  let yearBuilt := parseKenmerkValue sections "bouw" "bouw-bouwjaar"
  let livingArea := parseKenmerkValue sections "afmetingen" "afmetingen-gebruiksoppervlakten-wonen"
  let plotArea := parseKenmerkValue sections "afmetingen" "afmetingen-gebruiksoppervlakten-tuin"
  let rooms := parseKenmerkValue sections "indeling" "indeling-kamers"
  let bedrooms := parseKenmerkValue sections "indeling" "indeling-slaapkamers"
  let bathrooms := parseKenmerkValue sections "indeling" "indeling-badkamers"
  let energyLabel := parseKenmerkValue sections "energie" "energie-energielabel"
  let parking := parseKenmerkValue sections "parkeergelegenheid" "parkeergelegenheid-soort"
  { pricePerSqm := if truthyS pricePerM2 then some (cleanPriceStringAPI (pricePerM2.getD "")) else none
    dutchPropertyType := if truthyS propertyType then propertyType else none
    constructionType := if truthyS constructionType then constructionType else none
    yearBuilt := if truthyS yearBuilt then parseIntJS (yearBuilt.getD "") else none
    sqm := if truthyS livingArea then firstNumber (livingArea.getD "") else none
    plotSqm := if truthyS plotArea then firstNumber (plotArea.getD "") else none
    rooms := if truthyS rooms then firstNumber (rooms.getD "") else none
    bedrooms := if truthyS bedrooms then firstNumber (bedrooms.getD "") else none
    bathrooms := if truthyS bathrooms then firstNumber (bathrooms.getD "") else none
    energyLabel := if truthyS energyLabel then some (trimJS (energyLabel.getD "")) else none
    parkingType := if truthyS parking then parking else none
    hasParking := if truthyS parking then some (truthyS parking) else none }

/-- Model of `FundaAPIClient.extractImages` (api-client.ts:283-297). -/
def extractImages (media : Option Media) : List String :=
  let items := ((media.bind (·.photos)).bind (·.items)).getD []
  items.foldr
    (fun item acc =>
      if truthyS item.id then
        ("https://cloud.funda.nl/valentina_media/" ++ item.id.getD "" ++
          "_1440x960.jpg") :: acc
      else acc)
    []

/-- Model of `FundaAPIClient.parseListingResponse` (api-client.ts:302-371); `now` is
the value of `new Date().toISOString()` at call time. -/
def parseListingResponse (data : FundaListingResponse) (now : String) :
    FundaPropertyData :=
  let kenmerkData := parseKenmerkSections data
  let addressDetails := data.addressDetails.getD {}
  -- `[addressDetails.HouseNumber && addressDetails.Title].filter(Boolean).join(' ')`
  let hnAndTitle : Option String :=
    if truthyS addressDetails.houseNumber then addressDetails.title
    else addressDetails.houseNumber
  let address := if truthyS hnAndTitle then hnAndTitle.getD "" else ""
  let price := jsOrNullN (data.price.bind (·.numericSellingPrice))
  let images := extractImages data.media
  let offeringType := jsOrS data.offeringType "Unknown"
  let transactionType : TransactionType :=
    if toLowerJS offeringType = "rent" then .rent
    else if toLowerJS offeringType = "sale" then .sale
    else .unknown
  let coordinates := data.coordinates.getD {}
  let description := jsOrS (data.listingDescription.bind (·.description)) ""
  let objectType := jsOrS data.objectType "Unknown"
  let insights := data.objectInsights.getD {}
  { tinyId := jsOrS (data.identifiers.bind (·.tinyId)) ""
    globalId := jsOrN (data.identifiers.bind (·.globalId)) 0
    title := jsOrS addressDetails.title ""
    address := address
    postalCode := jsOrS addressDetails.postCode ""
    city := jsOrS addressDetails.city ""
    province := jsOrS addressDetails.province ""
    country := jsOrS addressDetails.country "Netherlands"
    latitude := jsOrNullN coordinates.latitude
    longitude := jsOrNullN coordinates.longitude
    price := price
    currency := "EUR"
    pricePerSqm := kenmerkData.pricePerSqm
    sqm := kenmerkData.sqm
    plotSqm := kenmerkData.plotSqm
    rooms := kenmerkData.rooms
    bedrooms := kenmerkData.bedrooms
    bathrooms := kenmerkData.bathrooms
    yearBuilt := kenmerkData.yearBuilt
    objectType := objectType
    dutchPropertyType := kenmerkData.dutchPropertyType
    constructionType := kenmerkData.constructionType
    energyLabel := kenmerkData.energyLabel
    parkingType := kenmerkData.parkingType
    hasParking := kenmerkData.hasParking
    description := description
    images := images
    views := parseIntJS (jsOrS (insights.views) "0")
    saves := parseIntJS (jsOrS (insights.saves) "0")
    transactionType := transactionType
    publicationDate := data.publicationDate
    isSoldOrRented := jsOrB data.isSoldOrRented
    url := jsOrS ((data.urls.bind (·.friendlyUrl)).bind (·.fullUrl)) ""
    scrapedAt := now }

/-! ## Transformer (`src/unnamed/part_001`) -/

/-- Model of `normalizePropertyType` (part_001:99-154): combine the Dutch label and the
generic object type with a space, lower-case, and test an ordered substring
table, first match wins. -/
def normalizePropertyType (dutchType objectType : Option String) : String :=
  if ¬truthyS dutchType ∧ ¬truthyS objectType then "property"
  else
    let combined := toLowerJS (jsOrS dutchType "" ++ " " ++ jsOrS objectType "")
    if containsSub combined "appartement" || containsSub combined "apartment" then
      "apartment"
    else if containsSub combined "woning" || containsSub combined "eengezinswoning"
        || containsSub combined "huis" then
      "house"
    else if containsSub combined "villa" then "villa"
    else if containsSub combined "bungalow" then "bungalow"
    else if containsSub combined "studio" then "studio"
    else if containsSub combined "kamer" then "room"
    else if containsSub combined "tuin" || containsSub combined "grond" then "land"
    else if containsSub combined "nieuwbouw" then "new-construction"
    else if containsSub combined "boerderij" then "farm"
    else "property"

/-- The ordered locale-substring table of the taxonomy classifier, in the
precedence order of the specification (apartment terms, dwelling terms, villa,
bungalow, studio, room terms, garden/land terms, new-construction terms, farm
terms). -/
def typeTable : List (List String × String) :=
  [(["appartement", "apartment"], "apartment"),
   (["woning", "eengezinswoning", "huis"], "house"),
   (["villa"], "villa"),
   (["bungalow"], "bungalow"),
   (["studio"], "studio"),
   (["kamer"], "room"),
   (["tuin", "grond"], "land"),
   (["nieuwbouw"], "new-construction"),
   (["boerderij"], "farm")]

/-- First-match-wins scan of a classification table. -/
def classifyTable (text : String) : List (List String × String) → String
  | [] => "property"
  | (terms, cat) :: rest =>
    if terms.any (fun t => containsSub text t) then cat
    else classifyTable text rest

/-- Modelled from the spec: `classify(primaryLabel?, secondaryLabel?)` —
concatenate both labels (absent treated as empty, joined by a space),
lower-case, and test containment against the ordered table, first match wins;
no match yields the generic `property`. -/
def classifySpec (primaryLabel secondaryLabel : Option String) : String :=
  classifyTable
    (toLowerJS (primaryLabel.getD "" ++ " " ++ secondaryLabel.getD ""))
    typeTable

/-- Model of `parsePricePerSqm` (part_001:159-165). The character class of its
`replace` call contains the bytes `U+00E2 U+201A U+00AC` (a mis-encoded euro
sign) rather than `€` (`U+20AC`), so a genuine euro sign is *not* stripped;
this is embedded faithfully. -/
def parsePricePerSqm (pricePerSqmStr : Option String) : Option ℚ :=
  match pricePerSqmStr with
  | none => none
  | some s =>
    if s = "" then none
    else
      let cleaned := String.mk (replaceFirstComma
        (s.toList.filter
          (fun c => ¬(c = 'â' || c = '‚' || c = '¬' || isJSWhitespace c || c = '.'))))
      parseFloatJS cleaned

/-- Model of `extractFeatures` (part_001:170-186). -/
def extractFeatures (data : FundaPropertyData) : List String :=
  (if truthyS data.energyLabel then
      ["Energy Label: " ++ data.energyLabel.getD ""] else []) ++
  (if truthyS data.parkingType then
      ["Parking: " ++ data.parkingType.getD ""] else []) ++
  (if truthyS data.constructionType then
      ["Construction: " ++ data.constructionType.getD ""] else [])

/-- A value stored in the `country_specific` extension bag (`Record<string,
any>`): the code stores strings and numbers. -/
inductive CSVal : Type where
  | str (s : String)
  | num (n : Int)
deriving DecidableEq, Repr

/-- Model of `StandardProperty.location`. -/
structure SPLocation : Type where
  address : String
  city : String
  region : String
  country : String
  postal_code : String
  coordinates : Option (Int × Int)
deriving DecidableEq, Repr

/-- Model of `StandardProperty.details`. -/
structure SPDetails : Type where
  bedrooms : Option Int
  bathrooms : Option Int
  sqm : Option Int
  sqm_type : String
  rooms : Option Int
  year_built : Option Int
deriving DecidableEq, Repr

/-- Model of `StandardProperty.amenities` (the attributes `transformToStandard`
assigns). -/
structure SPAmenities : Type where
  has_parking : Bool
  has_garden : Option Bool
  is_furnished : Option Bool
  is_new_construction : Option Bool
deriving DecidableEq, Repr

/-- Model of `StandardProperty` (part_001:14-94), restricted to the attributes
`transformToStandard` assigns; the status and transaction enums are carried as
strings. -/
structure StandardProperty : Type where
  title : String
  price : Int
  currency : String
  property_type : String
  transaction_type : String
  source_url : String
  location : SPLocation
  details : SPDetails
  images : List String
  description : String
  description_language : String
  features : List String
  amenities : SPAmenities
  energy_rating : Option String
  price_per_sqm : Option ℚ
  country_specific : List (String × CSVal)
  status : String
deriving DecidableEq, Repr

/-- The `countrySpecific` record assembled by `transformToStandard`
(part_001:196-244): one conditional insertion per Dutch-market fact, in source
order. -/
def buildCountrySpecific (data : FundaPropertyData) : List (String × CSVal) :=
  (if truthyS data.dutchPropertyType then
      [("dutch_property_type", CSVal.str (data.dutchPropertyType.getD ""))] else []) ++
  (if truthyS data.constructionType then
      [("construction_type", CSVal.str (data.constructionType.getD ""))] else []) ++
  (if truthyS data.parkingType then
      [("parking_type", CSVal.str (data.parkingType.getD ""))] else []) ++
  (if data.province ≠ "" then
      [("province", CSVal.str data.province)] else []) ++
  (if truthyS data.energyLabel then
      [("energy_label", CSVal.str (data.energyLabel.getD ""))] else []) ++
  (if truthyN data.plotSqm then
      [("plot_sqm", CSVal.num (data.plotSqm.getD 0))] else []) ++
  (if truthyQ (parsePricePerSqm data.pricePerSqm) then
      [("price_per_sqm_original", CSVal.str (data.pricePerSqm.getD ""))] else []) ++
  (if truthyN data.views then
      [("views", CSVal.num (data.views.getD 0))] else []) ++
  (if truthyN data.saves then
      [("saves", CSVal.num (data.saves.getD 0))] else []) ++
  (if truthyS data.publicationDate then
      [("publication_date", CSVal.str (data.publicationDate.getD ""))] else [])

/-- Model of `transformToStandard` (part_001:191-304). -/
def transformToStandard (data : FundaPropertyData) : StandardProperty :=
  let propertyType := normalizePropertyType data.dutchPropertyType data.objectType
  let pricePerSqm := parsePricePerSqm data.pricePerSqm
  let countrySpecific := buildCountrySpecific data
  let status : String :=
    if data.isSoldOrRented then
      if data.transactionType = .rent then "rented" else "sold"
    else "active"
  { title := data.title
    price := jsOrN data.price 0
    currency := data.currency
    property_type := propertyType
    transaction_type := if data.transactionType = .rent then "rent" else "sale"
    source_url := data.url
    location :=
      { address := data.address
        city := data.city
        region := data.province
        country := data.country
        postal_code := data.postalCode
        coordinates :=
          if truthyN data.latitude ∧ truthyN data.longitude then
            some (data.latitude.getD 0, data.longitude.getD 0)
          else none }
    details :=
      { bedrooms := data.bedrooms
        bathrooms := data.bathrooms
        sqm := data.sqm
        sqm_type := "living"
        rooms := data.rooms
        year_built := data.yearBuilt }
    images := data.images
    description := data.description
    description_language := "nl"
    features := extractFeatures data
    amenities :=
      { has_parking := jsOrB data.hasParking
        has_garden :=
          if truthyN data.plotSqm then some (data.plotSqm.getD 0 > 0) else none
        is_furnished := none
        is_new_construction :=
          data.dutchPropertyType.map
            (fun s => containsSub (toLowerJS s) "nieuwbouw") }
    energy_rating := data.energyLabel
    price_per_sqm := pricePerSqm
    country_specific := countrySpecific
    status := status }

/-! ## Parser (`src/unnamed/part_002`) -/

/-- A raw page listing (`PageListing`, types.ts): `id` is required, the other
attributes optional; `price`/`sqm`/`rooms`/`bedrooms` are `string | number`
unions. -/
structure PageListing : Type where
  id : String := ""
  title : Option String := none
  price : Option (String ⊕ Int) := none
  address : Option String := none
  sqm : Option (String ⊕ Int) := none
  rooms : Option (String ⊕ Int) := none
  bedrooms : Option (String ⊕ Int) := none
  link : Option String := none
  image : Option String := none
deriving Repr

/-- Truthiness of a `string | number` union value. -/
def truthyU : Option (String ⊕ Int) → Bool
  | some (.inl s) => s ≠ ""
  | some (.inr n) => n ≠ 0
  | none => false

/-- JS `typeof x === 'string' ? x : String(x || '')`: keep a string as-is,
convert a truthy number to decimal text, else the empty string. -/
def unionToStr : Option (String ⊕ Int) → String
  | some (.inl s) => s
  | some (.inr n) => if n = 0 then "" else toString n
  | none => ""

/-- JS `s.startsWith(p)`. -/
def startsWithJS (s p : String) : Bool :=
  p.toList.isPrefixOf s.toList

/-- Model of `parsePrice` (part_002:180-185): strip `€`, whitespace and dots, turn the
first comma into a dot, and `parseInt` the result (`NaN` becomes `null`). -/
def parsePrice (priceText : Option String) : Option Int :=
  match priceText with
  | none => none
  | some s =>
    if s = "" then none
    else
      let cleaned := String.mk (replaceFirstComma
        (s.toList.filter (fun c => ¬(c = '€' || isJSWhitespace c || c = '.'))))
      parseIntJS cleaned

/-- Model of `determinePriceUnit` (part_002:190-195). -/
def determinePriceUnit (priceText : String) : String :=
  if priceText = "" then "total"
  else if containsSub (toLowerJS priceText) "per maand" ||
      containsSub (toLowerJS priceText) "/maand" then "per_month"
  else "total"

/-- Decide whether the digit run starting here is followed by optional
whitespace and `m²`/`m2` (case-insensitive `m`), and yield its value. -/
def sqmRunHere (c : Char) (rest : List Char) : Option Int :=
  let ds := c :: rest.takeWhile Char.isDigit
  let after := (rest.dropWhile Char.isDigit).dropWhile isJSWhitespace
  match after with
  | m :: x :: _ =>
    if (m = 'm' ∨ m = 'M') ∧ (x = '²' ∨ x = '2') then
      some ((digitsVal ds : Nat) : Int)
    else none
  | _ => none

/-- Semantics of `s.match(/(\d+)\s*m[²2]/i)` plus `parseInt` of the captured
digits: scan left to right for the first digit run followed by optional
whitespace and `m²`/`m2`.  (Scanning one character at a time is equivalent to
skipping a failed run whole: every position inside a digit run shares the
run's tail, so it matches iff the run's start matched.) -/
def findSqm : List Char → Option Int
  | [] => none
  | c :: rest =>
    if c.isDigit then
      match sqmRunHere c rest with
      | some n => some n
      | none => findSqm rest
    else findSqm rest

/-- Model of `extractSqm` (part_002:200-204). -/
def extractSqm (text : String) : Option Int :=
  if text = "" then none else findSqm text.toList

/-- Model of `extractNumber` (part_002:209-213): `parseInt` of the first digit run. -/
def extractNumber (text : String) : Option Int :=
  if text = "" then none else firstNumber text

/-- Model of `detectPropertyType` (part_002:218-227). -/
def detectPropertyType (url title : String) : String :=
  let combined := toLowerJS (url ++ " " ++ title)
  if containsSub combined "appartement" || containsSub combined "apartment" then
    "apartment"
  else if containsSub combined "huis" || containsSub combined "woning"
      || containsSub combined "house" then "house"
  else if containsSub combined "studio" then "studio"
  else if containsSub combined "kamer" || containsSub combined "room" then "room"
  else if containsSub combined "villa" then "villa"
  else if containsSub combined "tuin" || containsSub combined "garden" then "land"
  else "property"

/-- Model of `FundaProperty.location` (types.ts), with the attributes either
normalizer assigns. -/
structure FPLocation : Type where
  address : Option String
  city : String
  country : String
  postalCode : Option String := none
  latitude : Option Int := none
  longitude : Option Int := none
deriving DecidableEq, Repr

/-- Model of `FundaProperty.details`. -/
structure FPDetails : Type where
  sqm : Option Int := none
  rooms : Option Int := none
  bedrooms : Option Int := none
  bathrooms : Option Int := none
  yearBuilt : Option Int := none
  gardenSqm : Option Int := none
  parking : Option Bool := none
deriving DecidableEq, Repr

/-- Model of `FundaProperty` (types.ts): the normalized listing record. -/
structure FundaProperty : Type where
  id : String
  source : String
  url : String
  title : String
  price : Option Int
  currency : String
  priceUnit : String
  propertyType : String
  transactionType : TransactionType
  status : String
  location : FPLocation
  details : FPDetails
  features : List String
  images : List String
  description : Option String := none
  scrapedAt : String
deriving DecidableEq, Repr

/-- Model of `normalizeProperty` (part_002:232-272); `now` is the
`new Date().toISOString()` value, `fallbackId` the generated
`funda-(Date.now())-(Math.random())` identifier, both read at call time. -/
def normalizeProperty (listing : PageListing) (transactionType : TransactionType)
    (now fallbackId : String) : Option FundaProperty :=
  if ¬truthyS listing.title ∧ ¬truthyU listing.price then none
  else
    let url := jsOrS listing.link "#"
    let price := parsePrice (some (unionToStr listing.price))
    let priceUnit := determinePriceUnit (unionToStr listing.price)
    let sqm := extractSqm (unionToStr listing.sqm)
    let rooms := extractNumber (unionToStr listing.rooms)
    let bedrooms := extractNumber (unionToStr listing.bedrooms)
    some
      { id := if listing.id = "" then fallbackId else listing.id
        source := "funda-netherlands"
        url := if startsWithJS url "http" then url else "https://www.funda.nl" ++ url
        title := jsOrS listing.title (jsOrS listing.address "Property")
        price := price
        currency := "EUR"
        priceUnit := priceUnit
        propertyType := detectPropertyType url (jsOrS listing.title "")
        transactionType := transactionType
        status := "available"
        location :=
          { address := listing.address
            city := "Netherlands"
            country := "Netherlands" }
        details :=
          { sqm := sqm
            rooms := rooms
            bedrooms := bedrooms }
        features := []
        images := if truthyS listing.image then [listing.image.getD ""] else []
        scrapedAt := now }

/-- Model of `normalizePropertyFromAPI` (part_002:277-343). -/
def normalizePropertyFromAPI (data : FundaPropertyData) : Option FundaProperty :=
  if data.title = "" ∧ ¬truthyN data.price then none
  else
    let propertyType : String :=
      if truthyS data.dutchPropertyType then
        let dutch := toLowerJS (data.dutchPropertyType.getD "")
        if containsSub dutch "appartement" then "apartment"
        else if containsSub dutch "huis" || containsSub dutch "woning" then "house"
        else if containsSub dutch "studio" then "studio"
        else if containsSub dutch "villa" then "villa"
        else if containsSub dutch "bungalow" then "bungalow"
        else if containsSub dutch "tuin" then "land"
        else if containsSub dutch "nieuwbouw" then "new-construction"
        else "property"
      else if data.objectType ≠ "" then
        let obj := toLowerJS data.objectType
        if containsSub obj "apartment" then "apartment"
        else if containsSub obj "house" then "house"
        else if containsSub obj "studio" then "studio"
        else if containsSub obj "villa" then "villa"
        else "property"
      else "property"
    let priceUnit := if data.transactionType = .rent then "per_month" else "total"
    let status : String :=
      if data.isSoldOrRented then
        if data.transactionType = .rent then "rented" else "sold"
      else "available"
    some
      { id := data.tinyId
        source := "funda-netherlands-api"
        url := data.url
        title := data.title
        price := data.price
        currency := data.currency
        priceUnit := priceUnit
        propertyType := propertyType
        transactionType := data.transactionType
        status := status
        location :=
          { address := some data.address
            city := data.city
            country := data.country
            postalCode := some data.postalCode
            latitude := data.latitude
            longitude := data.longitude }
        details :=
          { sqm := data.sqm
            rooms := data.rooms
            bedrooms := data.bedrooms
            bathrooms := data.bathrooms
            yearBuilt := data.yearBuilt
            gardenSqm := data.plotSqm
            parking := data.hasParking }
        features :=
          if truthyS data.energyLabel then
            ["Energy Label: " ++ data.energyLabel.getD ""] else []
        images := data.images
        description := some data.description
        scrapedAt := data.scrapedAt }

/-! ## Batch coordinator -/

/-- Model of `FundaAPIClient.getListingsBatch` (api-client.ts:136-159): sequential
fetch-per-identifier with per-item failure isolation; `fetch` abstracts
`getListingByTinyId`, whose `null` covers transport errors, non-200 statuses
and empty payloads. -/
def getListingsBatch (fetch : String → Option FundaListingResponse) :
    List String → List FundaListingResponse × List String
  | [] => ([], [])
  | tinyId :: rest =>
    let acc := getListingsBatch fetch rest
    match fetch tinyId with
    | some listing => (listing :: acc.1, acc.2)
    | none => (acc.1, tinyId :: acc.2)

/-- Model of `FundaRESTAPIScraper.fetchListing` (part_001:414-437): fetch raw data,
parse it, normalize it; any failure yields `none`. -/
def fetchListing (fetch : String → Option FundaListingResponse) (now : String)
    (tinyId : String) : Option FundaProperty :=
  (fetch tinyId).bind fun rawData =>
    normalizePropertyFromAPI (parseListingResponse rawData now)

/-- Model of `FundaRESTAPIScraper.fetchListingsBatch` (part_001:442-486): the batch
loop, accumulating the success list (`results`) and the failed identifier list
(`failed`) in input order. -/
def fetchListingsBatch (fetch : String → Option FundaListingResponse)
    (now : String) : List String → List FundaProperty × List String
  | [] => ([], [])
  | tinyId :: rest =>
    let acc := fetchListingsBatch fetch now rest
    match fetchListing fetch now tinyId with
    | some property => (property :: acc.1, acc.2)
    | none => (acc.1, tinyId :: acc.2)

/-! ## Rate-limiter timing model

`FundaAPIClient.rateLimit` (api-client.ts:56-68) keeps `lastRequestTime`; each
request first suspends until at least `delayNeeded` has elapsed since the
previous request began, then stamps `lastRequestTime` with the post-wait
clock.  Time is modelled as an explicit natural-number clock threaded through
the batch loop; each identifier's fetch takes an arbitrary duration. -/

/-- The client clock state: the current time and `lastRequestTime`
(initialized to `0` in the constructor). -/
structure RLState : Type where
  now : Nat
  lastRequestTime : Nat
deriving DecidableEq, Repr

/-- One `rateLimit()` call with minimum delay `d`: returns the time at which
the following fetch begins, and the state after
`this.lastRequestTime = Date.now()`. -/
def rateLimitStep (d : Nat) (st : RLState) : Nat × RLState :=
  let timeSinceLastRequest := st.now - st.lastRequestTime
  let start :=
    if timeSinceLastRequest < d then st.now + (d - timeSinceLastRequest)
    else st.now
  (start, ⟨start, start⟩)

/-- The timing skeleton of `fetchListingsBatch`: one `rateLimit`-then-fetch
step per identifier, where `durations` lists each fetch's duration (`0` for an
instantaneous fetch).  Returns the fetch start times and the final state. -/
def runBatchTimed (d : Nat) : List Nat → RLState → List Nat × RLState
  | [], st => ([], st)
  | dur :: rest, st =>
    let step := rateLimitStep d st
    let afterFetch : RLState := ⟨step.1 + dur, step.2.lastRequestTime⟩
    let tail := runBatchTimed d rest afterFetch
    (step.1 :: tail.1, tail.2)

/-- Erase the scrape timestamp, the only wall-clock-dependent attribute of a
parsed listing record. -/
def clearScrapedFPD (p : FundaPropertyData) : FundaPropertyData :=
  { p with scrapedAt := "" }

/-- Erase the scrape timestamp of a normalized property. -/
def clearScrapedFP (p : FundaProperty) : FundaProperty :=
  { p with scrapedAt := "" }

/-- Erase the scrape timestamp and the record id of a normalized property. -/
def clearScrapedIdFP (p : FundaProperty) : FundaProperty :=
  { p with scrapedAt := "", id := "" }

/-! ## Claim theorems -/

/-- C5 (confirmed): attribute resolution — `parseKenmerkValue` selects the
first section whose id matches, flattens that section's fields and all
descendant fields depth-first with parent fields before child fields, and
returns the value of the first field whose id equals the requested one
(absent values and empty values count as *no value*); it returns absent on an
empty or non-matching tree, never fails, and ignores duplicate sections after
the first match. -/
theorem c5_attribute_resolution :
    (∀ (sections : List KSection) (sectionId fieldId : String),
        parseKenmerkValue sections sectionId fieldId =
          resolveSpec sections sectionId fieldId) ∧
    (∀ sectionId fieldId, parseKenmerkValue [] sectionId fieldId = none) ∧
    (∀ (i v : Option String) (l : List Kenmerk),
        flattenOne (.mk i v (some l)) = .mk i v (some l) :: flattenList l) ∧
    (∀ (sec : KSection) (rest : List KSection) (sectionId fieldId : String),
        sec.id = sectionId →
          parseKenmerkValue (sec :: rest) sectionId fieldId =
            parseKenmerkValue [sec] sectionId fieldId) := by
  refine ⟨?_, ?_, ?_, ?_⟩
  · intro sections sid fid
    unfold parseKenmerkValue resolveSpec
    cases sections.find? (fun s => s.id = sid) with
    | none => rfl
    | some sec =>
      cases sec with
      | mk sid2 kl =>
        cases kl with
        | none => rfl
        | some l =>
          simp only [Option.some_bind, Option.getD_some]
          cases (flattenList l).find? (fun k => k.id = some fid) with
          | none => rfl
          | some f =>
            simp only [Option.some_bind]
            cases f with
            | mk fi fv fc =>
              simp only [Kenmerk.value]
              cases fv with
              | none => rfl
              | some v => rfl
  · intro sid fid
    rfl
  · intro i v l
    rfl
  · intro sec rest sid fid h
    unfold parseKenmerkValue
    rw [List.find?_cons_of_pos _ (by simp [h]),
      List.find?_cons_of_pos _ (by simp [h])]

/-- C5 witness: the duplicate-section tie-break applied to a concrete tree —
the first `bouw` section wins even though only the second one holds the
field. -/
theorem c5_attribute_resolution_witness :
    (parseKenmerkValue
        [⟨"bouw", some []⟩,
         ⟨"bouw", some [.mk (some "bouw-bouwjaar") (some "1998") none]⟩]
        "bouw" "bouw-bouwjaar" =
      parseKenmerkValue [⟨"bouw", some []⟩] "bouw" "bouw-bouwjaar") ∧
    parseKenmerkValue
        [⟨"bouw", some []⟩,
         ⟨"bouw", some [.mk (some "bouw-bouwjaar") (some "1998") none]⟩]
        "bouw" "bouw-bouwjaar" = none :=
  ⟨c5_attribute_resolution.2.2.2
      ⟨"bouw", some []⟩
      [⟨"bouw", some [.mk (some "bouw-bouwjaar") (some "1998") none]⟩]
      "bouw" "bouw-bouwjaar" rfl,
    by decide⟩

theorem ite_truthyS_getD (t : Option String) :
    (if truthyS t then t.getD "" else "") = t.getD "" := by
  cases t with
  | none => rfl
  | some s =>
    by_cases h : s = "" <;> simp [truthyS, h]

/-- C10 (confirmed): the `address` assembled by `parseListingResponse` is the
`AddressDetails.Title` string (empty when the title is absent or empty) when
`AddressDetails.HouseNumber` is truthy, and the empty string otherwise; the
house-number text itself is never written into `address`. -/
theorem c10_address_from_title_only :
    ∀ (data : FundaListingResponse) (now : String),
      (parseListingResponse data now).address =
        (if truthyS ((data.addressDetails.getD {}).houseNumber) then
          (data.addressDetails.getD {}).title.getD ""
        else "") := by
  intro data now
  unfold parseListingResponse
  dsimp only
  by_cases h : truthyS ((data.addressDetails.getD {}).houseNumber)
  · simp only [h, if_true, ite_truthyS_getD]
  · simp [h]

theorem jsOrS_empty (x : Option String) : jsOrS x "" = x.getD "" := by
  cases x with
  | none => rfl
  | some s => by_cases h : s = "" <;> simp [jsOrS, h]

theorem getD_of_not_truthyS {x : Option String} (h : truthyS x = false) :
    x.getD "" = "" := by
  cases x with
  | none => rfl
  | some s => simpa [truthyS] using h

/-- C1 counterexample: a successfully fetched raw record whose parse carries
neither a truthy title nor a truthy price is not normalized — the identifier
lands in the failure set even though the fetch succeeded, so the normalizer is
not total. -/
theorem c1_totality_counterexample :
    normalizePropertyFromAPI { title := "", price := none } = none ∧
    (fetchListingsBatch (fun _ => some {}) "2026-01-30T00:00:00.000Z"
        ["51000001"]).1 = [] ∧
    (fetchListingsBatch (fun _ => some {}) "2026-01-30T00:00:00.000Z"
        ["51000001"]).2 = ["51000001"] := by
  refine ⟨by decide, by decide, by decide⟩

/-- C1 (corrected): `transformToStandard` is a total function, but
`normalizePropertyFromAPI` produces a record exactly when the source record
has a truthy title or a truthy price; otherwise it produces no record and the
identifier is recorded as a failure. -/
theorem c1_normalizer_totality :
    ∀ data : FundaPropertyData,
      (normalizePropertyFromAPI data).isSome =
        (decide (data.title ≠ "") || truthyN data.price) := by
  intro data
  unfold normalizePropertyFromAPI
  by_cases h1 : data.title = "" <;> by_cases h2 : truthyN data.price = true <;>
    simp [h1, h2]

/-- C6 counterexample: the inline classifier of `normalizePropertyFromAPI`
tests `studio` before `villa`, so the concrete label `"villa met studio"`
classifies as `studio` there, while the claimed ordered table (implemented by
`normalizePropertyType` and modelled by `classifySpec`) yields `villa`. -/
theorem c6_taxonomy_counterexample :
    (normalizePropertyFromAPI
        { title := "x", dutchPropertyType := some "villa met studio" }).map
        FundaProperty.propertyType = some "studio" ∧
    classifySpec (some "villa met studio") none = "villa" ∧
    normalizePropertyType (some "villa met studio") none = "villa" := by
  refine ⟨by decide, by decide, by decide⟩

/-- C6 (corrected): `normalizePropertyType` implements the claimed ordered
substring table over the space-joined, lower-cased pair of labels — in
particular `"woning met tuin"` classifies as `house`, not `land`, and unmapped
input yields `property` —, but the inline classifier in
`normalizePropertyFromAPI` deviates from the claimed table: it checks `studio`
before `villa`, has no room/`grond`/farm terms, and uses the generic label
only as a fallback instead of concatenating. -/
theorem c6_taxonomy_classification :
    (∀ dutchType objectType : Option String,
        normalizePropertyType dutchType objectType =
          classifySpec dutchType objectType) ∧
    normalizePropertyType (some "woning met tuin") none = "house" ∧
    normalizePropertyType none none = "property" := by
  refine ⟨?_, by decide, by decide⟩
  intro d o
  unfold normalizePropertyType classifySpec
  rw [jsOrS_empty, jsOrS_empty]
  by_cases h : ¬truthyS d = true ∧ ¬truthyS o = true
  · rw [if_pos h]
    rw [getD_of_not_truthyS (by simpa using h.1),
      getD_of_not_truthyS (by simpa using h.2)]
    decide
  · rw [if_neg h]
    simp only [classifyTable, typeTable, List.any_cons, List.any_nil,
      Bool.or_false, Bool.or_assoc]

/-- C7 (code bug): the numeric price-per-area coercion `parsePricePerSqm` is
meant to strip the currency symbol, but its character class holds the
mis-encoded byte sequence `â‚¬` instead of `€`, so a genuine euro sign
survives cleanup and parsing degrades to absent; the sibling cleanup in
`parseKenmerkSections` (with a correctly encoded `€`) strips it as claimed.
Absent input and unparsable input do yield absent without failing. -/
theorem c7_price_coercion_eurosign_bug :
    parsePricePerSqm (some "€ 4.500") = none ∧
    cleanPriceStringAPI "€ 4.500" = "4500" ∧
    (parseFloatJS (cleanPriceStringAPI "€ 4.500")).isSome = true ∧
    parsePricePerSqm none = none ∧
    parsePricePerSqm (some "n.v.t.") = none := by
  refine ⟨by decide, by decide, by decide, rfl, by decide⟩

/-- C8 counterexample: for a not-sold record the API normalizer derives the
status string `available`, not `active`. -/
theorem c8_status_counterexample :
    (normalizePropertyFromAPI { title := "Teststraat 1" }).map
        FundaProperty.status = some "available" ∧
    "available" ≠ "active" := by
  refine ⟨by decide, by decide⟩

/-- C8 (corrected): with the sold-or-rented flag set, both normalizers derive
`rented` for a rent-like transaction kind and `sold` otherwise (also for
`unknown`); with the flag unset `transformToStandard` derives `active` while
`normalizePropertyFromAPI` derives `available`. -/
theorem c8_status_derivation :
    (∀ data : FundaPropertyData,
        (transformToStandard data).status =
          (if data.isSoldOrRented then
            if data.transactionType = .rent then "rented" else "sold"
          else "active")) ∧
    (∀ data : FundaPropertyData,
        (normalizePropertyFromAPI data).map FundaProperty.status =
          (if data.title = "" ∧ ¬truthyN data.price then none
          else
            some
              (if data.isSoldOrRented then
                if data.transactionType = .rent then "rented" else "sold"
              else "available"))) := by
  constructor
  · intro data
    rfl
  · intro data
    unfold normalizePropertyFromAPI
    by_cases h : data.title = "" ∧ ¬truthyN data.price = true
    · rw [if_pos h, if_pos h]
      rfl
    · rw [if_neg h, if_neg h]
      rfl

/-- C2 (confirmed): batch isolation — every identifier is processed, lands in
exactly one of the success or failure lists (`|success| + |failure| = N`), the
success list is the input-ordered pointwise image of per-identifier
fetch-and-normalize (so one identifier's failure cannot alter another's
output, and relative input order is preserved), and the failure list is the
input-ordered list of identifiers whose fetch or normalization failed; the
same holds for the raw-level `getListingsBatch`. -/
theorem c2_batch_isolation :
    (∀ (fetch : String → Option FundaListingResponse) (now : String)
        (ids : List String),
        (fetchListingsBatch fetch now ids).1.length +
            (fetchListingsBatch fetch now ids).2.length = ids.length) ∧
    (∀ (fetch : String → Option FundaListingResponse) (now : String)
        (ids : List String),
        (fetchListingsBatch fetch now ids).1 =
          ids.filterMap (fetchListing fetch now)) ∧
    (∀ (fetch : String → Option FundaListingResponse) (now : String)
        (ids : List String),
        (fetchListingsBatch fetch now ids).2 =
          ids.filter (fun tinyId => (fetchListing fetch now tinyId).isNone)) ∧
    (∀ (fetch : String → Option FundaListingResponse) (ids : List String),
        (getListingsBatch fetch ids).1 = ids.filterMap fetch) ∧
    (∀ (fetch : String → Option FundaListingResponse) (ids : List String),
        (getListingsBatch fetch ids).2 =
          ids.filter (fun tinyId => (fetch tinyId).isNone)) := by
  refine ⟨?_, ?_, ?_, ?_, ?_⟩
  · intro fetch now ids
    induction ids with
    | nil => rfl
    | cons tinyId rest ih =>
      cases h : fetchListing fetch now tinyId <;>
        simp [fetchListingsBatch, h] <;> omega
  · intro fetch now ids
    induction ids with
    | nil => rfl
    | cons tinyId rest ih =>
      cases h : fetchListing fetch now tinyId <;>
        simp [fetchListingsBatch, List.filterMap_cons, h, ih]
  · intro fetch now ids
    induction ids with
    | nil => rfl
    | cons tinyId rest ih =>
      cases h : fetchListing fetch now tinyId <;>
        simp [fetchListingsBatch, List.filter_cons, h, ih, Option.isNone]
  · intro fetch ids
    induction ids with
    | nil => rfl
    | cons tinyId rest ih =>
      cases h : fetch tinyId <;>
        simp [getListingsBatch, List.filterMap_cons, h, ih]
  · intro fetch ids
    induction ids with
    | nil => rfl
    | cons tinyId rest ih =>
      cases h : fetch tinyId <;>
        simp [getListingsBatch, List.filter_cons, h, ih, Option.isNone]

/-- C3 counterexample: two runs of `parseListingResponse` on the very same raw
record at different instants produce records that are *not* structurally
identical — the `scrapedAt` attribute records the wall clock. -/
theorem c3_determinism_counterexample :
    parseListingResponse {} "2026-01-30T00:00:00.000Z" ≠
      parseListingResponse {} "2026-01-30T00:00:01.000Z" := by
  decide

/-- C3 (corrected): normalization is deterministic and idempotent on every
attribute except the scrape timestamp: two runs of `parseListingResponse` on
the same raw input agree on every field but `scrapedAt`, and two runs of
`normalizeProperty` agree on every field but `scrapedAt` and — only when the
listing carries no id of its own — the generated fallback id. -/
theorem c3_determinism_modulo_timestamp :
    (∀ (data : FundaListingResponse) (t1 t2 : String),
        clearScrapedFPD (parseListingResponse data t1) =
          clearScrapedFPD (parseListingResponse data t2)) ∧
    (∀ (listing : PageListing) (tt : TransactionType) (t1 t2 rid1 rid2 : String),
        (normalizeProperty listing tt t1 rid1).map clearScrapedIdFP =
          (normalizeProperty listing tt t2 rid2).map clearScrapedIdFP) ∧
    (∀ (listing : PageListing) (tt : TransactionType) (t1 t2 rid1 rid2 : String),
        listing.id ≠ "" →
          (normalizeProperty listing tt t1 rid1).map clearScrapedFP =
            (normalizeProperty listing tt t2 rid2).map clearScrapedFP) := by
  refine ⟨?_, ?_, ?_⟩
  · intro data t1 t2
    rfl
  · intro listing tt t1 t2 rid1 rid2
    unfold normalizeProperty
    by_cases h : ¬truthyS listing.title = true ∧ ¬truthyU listing.price = true
    · rw [if_pos h, if_pos h]
    · rw [if_neg h, if_neg h]
      rfl
  · intro listing tt t1 t2 rid1 rid2 hid
    unfold normalizeProperty
    by_cases h : ¬truthyS listing.title = true ∧ ¬truthyU listing.price = true
    · rw [if_pos h, if_pos h]
    · rw [if_neg h, if_neg h]
      simp only [Option.map_some]
      unfold clearScrapedFP
      simp [if_neg hid]

/-- C3 witness: the timestamp-erased outputs coincide at a concrete listing
that carries its own id, across different clock and random readings. -/
theorem c3_determinism_witness :
    (normalizeProperty { id := "L1", title := some "Huis" } .sale
        "2026-01-30T00:00:00.000Z" "funda-1-0.1").map clearScrapedFP =
      (normalizeProperty { id := "L1", title := some "Huis" } .sale
        "2026-01-30T00:00:09.000Z" "funda-2-0.2").map clearScrapedFP :=
  c3_determinism_modulo_timestamp.2.2 { id := "L1", title := some "Huis" }
    .sale "2026-01-30T00:00:00.000Z" "2026-01-30T00:00:09.000Z"
    "funda-1-0.1" "funda-2-0.2" (by decide)

theorem mem_ite_singleton {α : Type} (x y : α) (c : Prop) [Decidable c] :
    (x ∈ if c then [y] else ([] : List α)) ↔ (c ∧ x = y) := by
  split <;> simp [*]

/-- C4 counterexample: a record whose raw price-per-area string is present and
non-empty but numerically unparsable (`"n.v.t."`) is normalized to an output
where that fact appears neither in the extension bag (no
`price_per_sqm_original` key — the bag is empty) nor as the universal
`price_per_sqm` field: the fact is silently dropped. -/
theorem c4_lossless_counterexample :
    truthyS (some "n.v.t.") = true ∧
    (transformToStandard
        { title := "Huis", pricePerSqm := some "n.v.t." }).country_specific =
      [] ∧
    (transformToStandard
        { title := "Huis", pricePerSqm := some "n.v.t." }).price_per_sqm =
      none := by
  refine ⟨by decide, by decide, by decide⟩

/-- C4 (corrected): each market-specific fact appears in the extension bag
(with the source value, under its stable key) exactly when its source value is
truthy — absent or falsy facts (including zero plot area and zero view/save
counters) produce no key at all — except that the raw price-per-area string is
keyed on its *parsed* numeric value being truthy, so a present-but-unparsable
(or zero-valued) string is dropped; the parsed number and the energy rating
are also carried as universal fields. -/
theorem c4_extension_bag_keys :
    ∀ (data : FundaPropertyData) (v : CSVal),
      (transformToStandard data).country_specific = buildCountrySpecific data ∧
      (transformToStandard data).price_per_sqm =
        parsePricePerSqm data.pricePerSqm ∧
      (transformToStandard data).energy_rating = data.energyLabel ∧
      ((("dutch_property_type", v) ∈ buildCountrySpecific data) ↔
        (truthyS data.dutchPropertyType = true ∧
          v = CSVal.str (data.dutchPropertyType.getD ""))) ∧
      ((("construction_type", v) ∈ buildCountrySpecific data) ↔
        (truthyS data.constructionType = true ∧
          v = CSVal.str (data.constructionType.getD ""))) ∧
      ((("parking_type", v) ∈ buildCountrySpecific data) ↔
        (truthyS data.parkingType = true ∧
          v = CSVal.str (data.parkingType.getD ""))) ∧
      ((("province", v) ∈ buildCountrySpecific data) ↔
        (data.province ≠ "" ∧ v = CSVal.str data.province)) ∧
      ((("energy_label", v) ∈ buildCountrySpecific data) ↔
        (truthyS data.energyLabel = true ∧
          v = CSVal.str (data.energyLabel.getD ""))) ∧
      ((("plot_sqm", v) ∈ buildCountrySpecific data) ↔
        (truthyN data.plotSqm = true ∧ v = CSVal.num (data.plotSqm.getD 0))) ∧
      ((("price_per_sqm_original", v) ∈ buildCountrySpecific data) ↔
        (truthyQ (parsePricePerSqm data.pricePerSqm) = true ∧
          v = CSVal.str (data.pricePerSqm.getD ""))) ∧
      ((("views", v) ∈ buildCountrySpecific data) ↔
        (truthyN data.views = true ∧ v = CSVal.num (data.views.getD 0))) ∧
      ((("saves", v) ∈ buildCountrySpecific data) ↔
        (truthyN data.saves = true ∧ v = CSVal.num (data.saves.getD 0))) ∧
      ((("publication_date", v) ∈ buildCountrySpecific data) ↔
        (truthyS data.publicationDate = true ∧
          v = CSVal.str (data.publicationDate.getD ""))) := by
  intro data v
  refine ⟨rfl, rfl, rfl, ?_, ?_, ?_, ?_, ?_, ?_, ?_, ?_, ?_, ?_⟩ <;>
    simp [buildCountrySpecific, mem_ite_singleton, Prod.mk.injEq]

theorem rateLimitStep_start_ge_now (d : Nat) (st : RLState) :
    st.now ≤ (rateLimitStep d st).1 := by
  unfold rateLimitStep
  dsimp only
  split <;> omega

theorem rateLimitStep_start_ge_last (d : Nat) (st : RLState)
    (h : st.lastRequestTime ≤ st.now) :
    st.lastRequestTime + d ≤ (rateLimitStep d st).1 := by
  unfold rateLimitStep
  dsimp only
  split <;> omega

theorem rateLimitStep_last_eq (d : Nat) (st : RLState) :
    (rateLimitStep d st).2.lastRequestTime = (rateLimitStep d st).1 := rfl

theorem runBatchTimed_final_ge_last (d : Nat) (durations : List Nat) :
    ∀ st : RLState, st.lastRequestTime ≤ st.now →
      st.lastRequestTime + durations.length * d ≤
        (runBatchTimed d durations st).2.now := by
  induction durations with
  | nil =>
    intro st h
    simpa [runBatchTimed] using h
  | cons dur rest ih =>
    intro st h
    have hstart := rateLimitStep_start_ge_last d st h
    have hle : st.lastRequestTime + d ≤ (rateLimitStep d st).2.lastRequestTime := by
      rw [rateLimitStep_last_eq]
      exact hstart
    have htail := ih
      ⟨(rateLimitStep d st).1 + dur, (rateLimitStep d st).2.lastRequestTime⟩
      (by rw [rateLimitStep_last_eq]; exact Nat.le_add_right _ _)
    dsimp only at htail
    simp only [runBatchTimed, List.length_cons]
    rw [Nat.succ_mul]
    omega

theorem runBatchTimed_chain (d : Nat) (durations : List Nat) :
    ∀ st : RLState, st.lastRequestTime ≤ st.now →
      List.Chain' (fun a b => a + d ≤ b) (runBatchTimed d durations st).1 := by
  induction durations with
  | nil =>
    intro st h
    simp [runBatchTimed]
  | cons dur rest ih =>
    intro st h
    have htail := ih
      ⟨(rateLimitStep d st).1 + dur, (rateLimitStep d st).2.lastRequestTime⟩
      (by rw [rateLimitStep_last_eq]; exact Nat.le_add_right _ _)
    simp only [runBatchTimed]
    refine List.chain'_cons'.2 ⟨?_, htail⟩
    intro y hy
    cases rest with
    | nil => simp [runBatchTimed] at hy
    | cons dur2 rest2 =>
      simp only [runBatchTimed, List.head?_cons, Option.mem_def,
        Option.some.injEq] at hy
      subst hy
      have hnext := rateLimitStep_start_ge_last d
        ⟨(rateLimitStep d st).1 + dur, (rateLimitStep d st).2.lastRequestTime⟩
        (by rw [rateLimitStep_last_eq]; exact Nat.le_add_right _ _)
      dsimp only at hnext
      rw [rateLimitStep_last_eq] at hnext
      exact hnext

/-- C9 (confirmed): minimum inter-request spacing — starting from the
constructor state (`lastRequestTime = 0`, arbitrary clock `t0`), consecutive
fetch start times produced by the rate-limited batch loop are at least `d`
apart, and the final clock is at least `t0 + (N-1)·d`, whatever the
per-fetch durations (in particular for instantaneous fetches). -/
theorem c9_min_request_spacing :
    ∀ (d : Nat) (durations : List Nat) (t0 : Nat),
      List.Chain' (fun a b => a + d ≤ b)
          (runBatchTimed d durations ⟨t0, 0⟩).1 ∧
      t0 + (durations.length - 1) * d ≤
        (runBatchTimed d durations ⟨t0, 0⟩).2.now := by
  intro d durations t0
  constructor
  · exact runBatchTimed_chain d durations ⟨t0, 0⟩ (Nat.zero_le t0)
  · cases durations with
    | nil => simp [runBatchTimed]
    | cons dur rest =>
      have hnow := rateLimitStep_start_ge_now d ⟨t0, 0⟩
      have htail := runBatchTimed_final_ge_last d rest
        ⟨(rateLimitStep d ⟨t0, 0⟩).1 + dur,
          (rateLimitStep d ⟨t0, 0⟩).2.lastRequestTime⟩
        (by rw [rateLimitStep_last_eq]; exact Nat.le_add_right _ _)
      dsimp only at htail hnow
      have hge : t0 ≤ (rateLimitStep d ⟨t0, 0⟩).2.lastRequestTime := by
        rw [rateLimitStep_last_eq]
        exact hnow
      simp only [runBatchTimed, List.length_cons, Nat.add_sub_cancel]
      omega
